import Mathlib

/-!
Shallow embedding of the `s3-wrapper` repository's policy-enforcement core
(`S3StorageClient` in the core package, together with the configuration types
of `@obelius/s3-types`).

Modelling conventions:
* TypeScript optional fields become `Option` fields.
* JavaScript truthiness tests that guard the validator's checks are modelled
  exactly: a string is truthy iff non-empty, a number is truthy iff non-zero,
  and `xs?.length` is truthy iff the list is present and non-empty.
* Each `throw new Error(...)` site becomes its own constructor of
  `ValidationError` (carrying the interpolated data); `message` reproduces the
  exact message strings of the source.
* Async storage calls are modelled by returning the transport command that
  would be sent; a facade method that throws before contacting the transport
  returns `Except.error`, so "the transport is never called" is expressed as
  the result not being `Except.ok`.
-/

/-- The `S3Operation` union type of `@obelius/s3-types`. -/
inductive S3Operation where
  | read
  | write
  | delete
  | list
  | acl_read
  | acl_write
  | presigned_upload
  | presigned_download
  | presigned_delete
  | presigned_list
deriving DecidableEq, Repr

/-- String rendering of an `S3Operation`, matching the TypeScript string
literals of the union type (used in interpolated error messages). -/
def S3Operation.name : S3Operation → String
  | .read => "read"
  | .write => "write"
  | .delete => "delete"
  | .list => "list"
  | .acl_read => "acl_read"
  | .acl_write => "acl_write"
  | .presigned_upload => "presigned_upload"
  | .presigned_download => "presigned_download"
  | .presigned_delete => "presigned_delete"
  | .presigned_list => "presigned_list"

/-- `RolePermissions` of `@obelius/s3-types`: `allowedOperations` is mandatory,
the remaining fields optional. -/
structure RolePermissions where
  allowedOperations : List S3Operation
  allowedPrefixes : Option (List String) := none
  maxFileSize : Option Nat := none
  allowedContentTypes : Option (List String) := none
deriving DecidableEq, Repr

/-- `RoleBasedAccessConfig` of `@obelius/s3-types`: a map from role name to
permissions (modelled as an association list, looked up by name) plus an
optional `defaultRole`. -/
structure RoleBasedAccessConfig where
  roles : List (String × RolePermissions)
  defaultRole : Option String := none
deriving DecidableEq, Repr

/-- `S3SecurityConfig` of `@obelius/s3-types`: all fields optional. -/
structure S3SecurityConfig where
  maxFileSize : Option Nat := none
  allowedContentTypes : Option (List String) := none
  allowedPrefixes : Option (List String) := none
  deniedPrefixes : Option (List String) := none
  roleBasedAccess : Option RoleBasedAccessConfig := none
deriving DecidableEq, Repr

/-- `OperationOptions` of `@obelius/s3-types`. -/
structure OperationOptions where
  role : Option String := none
  contentType : Option String := none
  contentLength : Option Nat := none
  metadata : List (String × String) := []
deriving DecidableEq, Repr

deriving instance DecidableEq for Except

/-- JavaScript truthiness of an optional string (`options?.contentType && ...`):
present and non-empty. -/
def truthyStr : Option String → Bool
  | none => false
  | some s => s != ""

/-- JavaScript truthiness of an optional number (`options?.contentLength && ...`):
present and non-zero. -/
def truthyNat : Option Nat → Bool
  | none => false
  | some n => n != 0

/-- JavaScript truthiness of `xs?.length` for an optional array: present and
non-empty. -/
def truthyLen {α : Type} : Option (List α) → Bool
  | none => false
  | some l => !l.isEmpty

/-- JavaScript `key.startsWith(p)`: literal char-wise prefix match (the spec's
"literal string-prefix match (byte/char-wise), no globbing, no path
normalization"). -/
def strStartsWith (key p : String) : Bool := p.data.isPrefixOf key.data

/-- One constructor per `throw new Error(...)` site of
`S3StorageClient.validateOperation`, in source order, carrying the data
interpolated into the message. -/
inductive ValidationError where
  | contentTypeNotAllowed (contentType : String)
  | fileSizeExceeded (maxFileSize : Nat)
  | keyNotAllowed (key : String)
  | keyDenied (key : String)
  | roleNotConfigured (role : String)
  | operationNotAllowedForRole (operation : S3Operation) (role : String)
  | roleKeyNotAllowed (key : String) (role : String)
  | roleContentTypeNotAllowed (contentType : String) (role : String)
  | roleFileSizeExceeded (role : String)
deriving DecidableEq, Repr

/-- The exact message string the corresponding `throw new Error(...)` site
produces. -/
def ValidationError.message : ValidationError → String
  | .contentTypeNotAllowed ct => "Content type " ++ ct ++ " is not allowed"
  | .fileSizeExceeded m =>
      "File size exceeds maximum allowed size of " ++ toString m ++ " bytes"
  | .keyNotAllowed key => "Access to prefix in key " ++ key ++ " is not allowed"
  | .keyDenied key => "Access to prefix in key " ++ key ++ " is denied"
  | .roleNotConfigured r => "Role " ++ r ++ " is not configured"
  | .operationNotAllowedForRole op r =>
      "Operation " ++ op.name ++ " is not allowed for role " ++ r
  | .roleKeyNotAllowed key r =>
      "Access to key " ++ key ++ " is not allowed for role " ++ r
  | .roleContentTypeNotAllowed ct r =>
      "Content type " ++ ct ++ " is not allowed for role " ++ r
  | .roleFileSizeExceeded r =>
      "File size exceeds maximum allowed size for role " ++ r

/-- `S3StorageClient.validateOperation`, translated condition by condition.
`this.security` is the `Option S3SecurityConfig` captured at construction;
a `throw` is `Except.error`, falling through every check is `Except.ok ()`.
The guards reproduce the source's truthiness tests:
`options?.contentType && this.security.allowedContentTypes?.length && !includes`,
`options?.contentLength && this.security.maxFileSize && >`,
`this.security.allowedPrefixes?.length && !some(startsWith)`,
`this.security.deniedPrefixes?.length && some(startsWith)`, then the
role-based block guarded by `options?.role && this.security.roleBasedAccess`. -/
def validateOperation (security : Option S3SecurityConfig)
    (operation : S3Operation) (key : String) (options : OperationOptions) :
    Except ValidationError Unit :=
  match security with
  | none => Except.ok ()
  | some sec =>
    if truthyStr options.contentType && truthyLen sec.allowedContentTypes
        && !((sec.allowedContentTypes.getD []).contains (options.contentType.getD "")) then
      Except.error (.contentTypeNotAllowed (options.contentType.getD ""))
    else if truthyNat options.contentLength && truthyNat sec.maxFileSize
        && decide (options.contentLength.getD 0 > sec.maxFileSize.getD 0) then
      Except.error (.fileSizeExceeded (sec.maxFileSize.getD 0))
    else if truthyLen sec.allowedPrefixes
        && !((sec.allowedPrefixes.getD []).any (fun p => strStartsWith key p)) then
      Except.error (.keyNotAllowed key)
    else if truthyLen sec.deniedPrefixes
        && ((sec.deniedPrefixes.getD []).any (fun p => strStartsWith key p)) then
      Except.error (.keyDenied key)
    else if truthyStr options.role && sec.roleBasedAccess.isSome then
      match (sec.roleBasedAccess.getD ⟨[], none⟩).roles.lookup (options.role.getD "") with
      | none => Except.error (.roleNotConfigured (options.role.getD ""))
      | some roleConfig =>
        if !(roleConfig.allowedOperations.contains operation) then
          Except.error (.operationNotAllowedForRole operation (options.role.getD ""))
        else if truthyLen roleConfig.allowedPrefixes
            && !((roleConfig.allowedPrefixes.getD []).any (fun p => strStartsWith key p)) then
          Except.error (.roleKeyNotAllowed key (options.role.getD ""))
        else if truthyStr options.contentType && truthyLen roleConfig.allowedContentTypes
            && !((roleConfig.allowedContentTypes.getD []).contains (options.contentType.getD "")) then
          Except.error (.roleContentTypeNotAllowed (options.contentType.getD "") (options.role.getD ""))
        else if truthyNat options.contentLength && truthyNat roleConfig.maxFileSize
            && decide (options.contentLength.getD 0 > roleConfig.maxFileSize.getD 0) then
          Except.error (.roleFileSizeExceeded (options.role.getD ""))
        else
          Except.ok ()
    else
      Except.ok ()

/-- The AWS SDK command a facade method hands to `this.client.send` /
`getSignedUrl`; one constructor per command class used in the source, carrying
the parameters the source fills in. -/
inductive TransportCommand where
  | putObject (bucket key : String) (contentType : Option String)
      (metadata : List (String × String))
  | getObject (bucket key : String) (responseContentType : Option String)
      (responseContentDisposition : Option String)
  | deleteObject (bucket key : String)
  | listObjectsV2 (bucket : String) (keysStartWith : Option String)
      (maxKeys : Option Nat) (delimiter : Option String)
  | putObjectAcl (bucket key acl : String)
  | getObjectAcl (bucket key : String)
  | headBucket (bucket : String)
  | createBucket (bucket : String)
  | deleteBucket (bucket : String)
deriving DecidableEq, Repr

/-- A facade error thrown locally, before the transport is contacted:
a validator deny (`PolicyViolation`, carrying the reason), or a presigned-URL
expiry ceiling violation (`ExpiryLimitExceeded`, carrying the ceiling in
seconds). Each corresponds to a distinct `throw` site of the facade. -/
inductive FacadeError where
  | policyViolation (reason : ValidationError)
  | expiryLimitExceeded (limitSeconds : Nat)
deriving DecidableEq, Repr

/-- A presigned URL, modelled as the signed command together with the
`expiresIn` passed to `getSignedUrl`. -/
structure PresignedUrl where
  command : TransportCommand
  expiresIn : Nat
deriving DecidableEq, Repr

/-- The state an `S3StorageClient` captures at construction that the modelled
operations read: the default bucket and the optional security policy. -/
structure S3StorageClient where
  defaultBucket : String
  security : Option S3SecurityConfig := none
deriving DecidableEq, Repr

/-- JavaScript `bucket || this.defaultBucket`: an absent or empty bucket
argument falls back to the default bucket. -/
def S3StorageClient.bucketOr (c : S3StorageClient) (bucket : Option String) : String :=
  match bucket with
  | some b => if b != "" then b else c.defaultBucket
  | none => c.defaultBucket

/-- Errors the transport itself may report; the facade never inspects the
payload in the modelled operations. -/
inductive TransportError where
  | notFound
  | accessDenied
  | network (msg : String)
  | other (msg : String)
deriving DecidableEq, Repr

/-- `S3StorageClient.checkBucket`: sends `HeadBucketCommand` for
`bucket || this.defaultBucket` and converts success to `true` and any thrown
transport error to `false` (the `try/catch` swallows every error).
The transport is modelled as a function from the sent command to its result. -/
def S3StorageClient.checkBucket (c : S3StorageClient) (bucket : Option String)
    (send : TransportCommand → Except TransportError Unit) : Bool :=
  match send (.headBucket (c.bucketOr bucket)) with
  | .ok _ => true
  | .error _ => false

/-- Options of `uploadFile`: `OperationOptions & { bucket?: string }`. -/
structure UploadFileOptions extends OperationOptions where
  bucket : Option String := none
deriving DecidableEq, Repr

/-- `S3StorageClient.uploadFile`: validates a `"write"` operation built from
the arguments (`{...options, contentType, contentLength: Buffer.byteLength(body)}`),
then sends `PutObjectCommand`. The body is modelled as its byte list. -/
def S3StorageClient.uploadFile (c : S3StorageClient) (key : String)
    (body : List Nat) (contentType : Option String)
    (options : UploadFileOptions) : Except FacadeError TransportCommand :=
  match validateOperation c.security .write key
      { options.toOperationOptions with
          contentType := contentType, contentLength := some body.length } with
  | .error e => Except.error (.policyViolation e)
  | .ok _ =>
      Except.ok (.putObject (c.bucketOr options.bucket) key contentType
        options.metadata)

/-- `S3StorageClient.downloadFile`: validates a `"read"` operation with the
caller's options, then sends `GetObjectCommand`. -/
def S3StorageClient.downloadFile (c : S3StorageClient) (key : String)
    (options : UploadFileOptions) : Except FacadeError TransportCommand :=
  match validateOperation c.security .read key options.toOperationOptions with
  | .error e => Except.error (.policyViolation e)
  | .ok _ => Except.ok (.getObject (c.bucketOr options.bucket) key none none)

/-- `S3StorageClient.deleteFile`: sends `DeleteObjectCommand` directly — the
source performs no validation in this method. -/
def S3StorageClient.deleteFile (c : S3StorageClient) (key : String)
    (bucket : Option String) : Except FacadeError TransportCommand :=
  Except.ok (.deleteObject (c.bucketOr bucket) key)

/-- `S3StorageClient.listFiles`: sends `ListObjectsV2Command` directly — the
source performs no validation in this method. -/
def S3StorageClient.listFiles (c : S3StorageClient)
    (keysStartWith : Option String) (bucket : Option String) :
    Except FacadeError TransportCommand :=
  Except.ok (.listObjectsV2 (c.bucketOr bucket) keysStartWith none none)

/-- `S3StorageClient.updateFilePermissions`: sends `PutObjectAclCommand`
directly — the source performs no validation in this method. -/
def S3StorageClient.updateFilePermissions (c : S3StorageClient) (key : String)
    (acl : String) (bucket : Option String) : Except FacadeError TransportCommand :=
  Except.ok (.putObjectAcl (c.bucketOr bucket) key acl)

/-- `S3StorageClient.getFilePermissions`: sends `GetObjectAclCommand`
directly — the source performs no validation in this method. -/
def S3StorageClient.getFilePermissions (c : S3StorageClient) (key : String)
    (bucket : Option String) : Except FacadeError TransportCommand :=
  Except.ok (.getObjectAcl (c.bucketOr bucket) key)

/-- Options of `getPresignedUploadUrl`. -/
structure PresignedUploadUrlOptions where
  contentType : Option String := none
  bucket : Option String := none
  role : Option String := none
  maxSize : Option Nat := none
  metadata : List (String × String) := []
deriving DecidableEq, Repr

/-- `S3StorageClient.getPresignedUploadUrl`: validates a `"write"` operation
with `{ role, contentType, contentLength: options?.maxSize }`, then enforces
`expiresIn > 24 * 3600 → throw`, then signs a `PutObjectCommand`. -/
def S3StorageClient.getPresignedUploadUrl (c : S3StorageClient) (key : String)
    (expiresIn : Nat) (options : PresignedUploadUrlOptions) :
    Except FacadeError PresignedUrl :=
  match validateOperation c.security .write key
      { role := options.role, contentType := options.contentType,
        contentLength := options.maxSize } with
  | .error e => Except.error (.policyViolation e)
  | .ok _ =>
      if expiresIn > 24 * 3600 then
        Except.error (.expiryLimitExceeded (24 * 3600))
      else
        Except.ok ⟨.putObject (c.bucketOr options.bucket) key
          options.contentType options.metadata, expiresIn⟩

/-- Options of `getPresignedDownloadUrl`. -/
structure PresignedDownloadUrlOptions where
  bucket : Option String := none
  role : Option String := none
  responseContentType : Option String := none
  responseContentDisposition : Option String := none
deriving DecidableEq, Repr

/-- `S3StorageClient.getPresignedDownloadUrl`: validates a `"read"` operation
with `{ role }`, then signs a `GetObjectCommand`; no expiry ceiling. -/
def S3StorageClient.getPresignedDownloadUrl (c : S3StorageClient) (key : String)
    (expiresIn : Nat) (options : PresignedDownloadUrlOptions) :
    Except FacadeError PresignedUrl :=
  match validateOperation c.security .read key { role := options.role } with
  | .error e => Except.error (.policyViolation e)
  | .ok _ =>
      Except.ok ⟨.getObject (c.bucketOr options.bucket) key
        options.responseContentType options.responseContentDisposition, expiresIn⟩

/-- Options of `getPresignedDeleteUrl` and `getPresignedAclUrl`. -/
structure PresignedBasicOptions where
  bucket : Option String := none
  role : Option String := none
deriving DecidableEq, Repr

/-- `S3StorageClient.getPresignedDeleteUrl`: validates a `"delete"` operation
with `{ role }`, then enforces `expiresIn > 3600 → throw`, then signs a
`DeleteObjectCommand`. -/
def S3StorageClient.getPresignedDeleteUrl (c : S3StorageClient) (key : String)
    (expiresIn : Nat) (options : PresignedBasicOptions) :
    Except FacadeError PresignedUrl :=
  match validateOperation c.security .delete key { role := options.role } with
  | .error e => Except.error (.policyViolation e)
  | .ok _ =>
      if expiresIn > 3600 then
        Except.error (.expiryLimitExceeded 3600)
      else
        Except.ok ⟨.deleteObject (c.bucketOr options.bucket) key, expiresIn⟩

/-- Options of `getPresignedListUrl`. -/
structure PresignedListUrlOptions where
  bucket : Option String := none
  role : Option String := none
  maxKeys : Option Nat := none
  delimiter : Option String := none
deriving DecidableEq, Repr

/-- `S3StorageClient.getPresignedListUrl`: validates a `"list"` operation on
the given prefix string with `{ role }`, then signs a `ListObjectsV2Command`
with `MaxKeys: options?.maxKeys || 1000`; no expiry ceiling. -/
def S3StorageClient.getPresignedListUrl (c : S3StorageClient)
    (keysStartWith : String) (expiresIn : Nat)
    (options : PresignedListUrlOptions) : Except FacadeError PresignedUrl :=
  match validateOperation c.security .list keysStartWith { role := options.role } with
  | .error e => Except.error (.policyViolation e)
  | .ok _ =>
      Except.ok ⟨.listObjectsV2 (c.bucketOr options.bucket)
        (some keysStartWith)
        (some (if truthyNat options.maxKeys then options.maxKeys.getD 0 else 1000))
        options.delimiter, expiresIn⟩

/-- `S3StorageClient.getPresignedAclUrl`: validates an `"acl_write"` operation
with `{ role }`, then enforces `expiresIn > 3600 → throw`, then signs a
`PutObjectAclCommand`. -/
def S3StorageClient.getPresignedAclUrl (c : S3StorageClient) (key : String)
    (acl : String) (expiresIn : Nat) (options : PresignedBasicOptions) :
    Except FacadeError PresignedUrl :=
  match validateOperation c.security .acl_write key { role := options.role } with
  | .error e => Except.error (.policyViolation e)
  | .ok _ =>
      if expiresIn > 3600 then
        Except.error (.expiryLimitExceeded 3600)
      else
        Except.ok ⟨.putObjectAcl (c.bucketOr options.bucket) key acl, expiresIn⟩

/-- Check 1 of the spec's fixed order: global content-type restriction, with
the same guard as the source's first `if`. -/
def checkContentType (sec : S3SecurityConfig) (options : OperationOptions) :
    Option ValidationError :=
  if truthyStr options.contentType && truthyLen sec.allowedContentTypes
      && !((sec.allowedContentTypes.getD []).contains (options.contentType.getD "")) then
    some (.contentTypeNotAllowed (options.contentType.getD ""))
  else none

/-- Check 2: global maximum file size. -/
def checkFileSize (sec : S3SecurityConfig) (options : OperationOptions) :
    Option ValidationError :=
  if truthyNat options.contentLength && truthyNat sec.maxFileSize
      && decide (options.contentLength.getD 0 > sec.maxFileSize.getD 0) then
    some (.fileSizeExceeded (sec.maxFileSize.getD 0))
  else none

/-- Check 3: global allow-prefix restriction on the key. -/
def checkAllowedPrefixes (sec : S3SecurityConfig) (key : String) :
    Option ValidationError :=
  if truthyLen sec.allowedPrefixes
      && !((sec.allowedPrefixes.getD []).any (fun p => strStartsWith key p)) then
    some (.keyNotAllowed key)
  else none

/-- Check 4: global deny-prefix restriction on the key. -/
def checkDeniedPrefixes (sec : S3SecurityConfig) (key : String) :
    Option ValidationError :=
  if truthyLen sec.deniedPrefixes
      && ((sec.deniedPrefixes.getD []).any (fun p => strStartsWith key p)) then
    some (.keyDenied key)
  else none

/-- The role permissions the role block operates on: defined only when the
role block's guard (`options?.role && this.security.roleBasedAccess`) holds
and the role is present in the `roles` map. -/
def activeRoleConfig (sec : S3SecurityConfig) (options : OperationOptions) :
    Option RolePermissions :=
  if truthyStr options.role && sec.roleBasedAccess.isSome then
    (sec.roleBasedAccess.getD ⟨[], none⟩).roles.lookup (options.role.getD "")
  else none

/-- Check 5a: the named role must exist in the `roles` map. -/
def checkRoleExists (sec : S3SecurityConfig) (options : OperationOptions) :
    Option ValidationError :=
  if truthyStr options.role && sec.roleBasedAccess.isSome then
    match (sec.roleBasedAccess.getD ⟨[], none⟩).roles.lookup (options.role.getD "") with
    | none => some (.roleNotConfigured (options.role.getD ""))
    | some _ => none
  else none

/-- Check 5b: the role's `allowedOperations` must contain the operation. -/
def checkRoleOperation (sec : S3SecurityConfig) (operation : S3Operation)
    (options : OperationOptions) : Option ValidationError :=
  match activeRoleConfig sec options with
  | some roleConfig =>
      if !(roleConfig.allowedOperations.contains operation) then
        some (.operationNotAllowedForRole operation (options.role.getD ""))
      else none
  | none => none

/-- Check 5c: the role's `allowedPrefixes`, when non-empty, must match the key. -/
def checkRolePrefixes (sec : S3SecurityConfig) (key : String)
    (options : OperationOptions) : Option ValidationError :=
  match activeRoleConfig sec options with
  | some roleConfig =>
      if truthyLen roleConfig.allowedPrefixes
          && !((roleConfig.allowedPrefixes.getD []).any (fun p => strStartsWith key p)) then
        some (.roleKeyNotAllowed key (options.role.getD ""))
      else none
  | none => none

/-- Check 5d: the role's `allowedContentTypes`, when non-empty, must contain
the request's content type. -/
def checkRoleContentType (sec : S3SecurityConfig) (options : OperationOptions) :
    Option ValidationError :=
  match activeRoleConfig sec options with
  | some roleConfig =>
      if truthyStr options.contentType && truthyLen roleConfig.allowedContentTypes
          && !((roleConfig.allowedContentTypes.getD []).contains (options.contentType.getD "")) then
        some (.roleContentTypeNotAllowed (options.contentType.getD "") (options.role.getD ""))
      else none
  | none => none

/-- Check 5e: the role's `maxFileSize` must not be exceeded. -/
def checkRoleFileSize (sec : S3SecurityConfig) (options : OperationOptions) :
    Option ValidationError :=
  match activeRoleConfig sec options with
  | some roleConfig =>
      if truthyNat options.contentLength && truthyNat roleConfig.maxFileSize
          && decide (options.contentLength.getD 0 > roleConfig.maxFileSize.getD 0) then
        some (.roleFileSizeExceeded (options.role.getD ""))
      else none
  | none => none

/-- The spec's nine constraint checks in its fixed order. -/
def validationChecks (sec : S3SecurityConfig) (operation : S3Operation)
    (key : String) (options : OperationOptions) : List (Option ValidationError) :=
  [checkContentType sec options,
   checkFileSize sec options,
   checkAllowedPrefixes sec key,
   checkDeniedPrefixes sec key,
   checkRoleExists sec options,
   checkRoleOperation sec operation options,
   checkRolePrefixes sec key options,
   checkRoleContentType sec options,
   checkRoleFileSize sec options]

/-- Short-circuit evaluation of a list of checks: the first failing check's
deny decision, or allow when every check passes. -/
def firstFailure : List (Option ValidationError) → Except ValidationError Unit
  | [] => Except.ok ()
  | some e :: _ => Except.error e
  | none :: rest => firstFailure rest

/-- A `roleBasedAccess` configuration with a single read-only role that is
also the `defaultRole`, used to exercise the default-role behaviour. -/
def viewerOnlyAccess : RoleBasedAccessConfig :=
  ⟨[("viewer", { allowedOperations := [.read] })], some "viewer"⟩

/-!
End-to-end scenarios A–D of the spec, checked by evaluation.
-/

example :
    validateOperation (some { allowedPrefixes := some ["public/"] }) .write
      "private/x.txt" {} = Except.error (.keyNotAllowed "private/x.txt") := by
  decide

example :
    validateOperation
      (some { roleBasedAccess := some ⟨[("viewer", { allowedOperations := [.read, .list] })], none⟩ })
      .write "k" { role := some "viewer" }
      = Except.error (.operationNotAllowedForRole .write "viewer") := by
  rfl

example : validateOperation none .write "k" {} = Except.ok () := by rfl

example :
    validateOperation (some { maxFileSize := some 1000 }) .write "k"
      { contentLength := some 1001 } = Except.error (.fileSizeExceeded 1000) := by
  rfl

example :
    validateOperation (some { maxFileSize := some 1000 }) .write "k"
      { contentLength := some 1000 } = Except.ok () := by
  rfl

/-- C1 counterexample: with a policy whose `deniedPrefixes` is `["private/"]`,
the Validator denies a delete of `"private/x.txt"`, yet `deleteFile` sends the
`DeleteObjectCommand` to the transport anyway — the claim that every
OperationKind-corresponding facade operation validates before contacting the
transport is false for `deleteFile` (and likewise `listFiles`,
`updateFilePermissions`, `getFilePermissions`). -/
theorem facade_deleteFile_skips_validation :
    validateOperation (some { deniedPrefixes := some ["private/"] }) .delete
      "private/x.txt" {} = Except.error (.keyDenied "private/x.txt")
    ∧ S3StorageClient.deleteFile ⟨"b", some { deniedPrefixes := some ["private/"] }⟩
        "private/x.txt" none = Except.ok (.deleteObject "b" "private/x.txt") :=
  ⟨by decide, rfl⟩

/-- C1 (amended): `uploadFile`, `downloadFile` and the five presigned-URL
issuers invoke the Validator on the built request before any transport
command is produced, and on deny fail with a `policyViolation` error carrying
the Validator's reason (the transport command is never produced); whereas
`deleteFile`, `listFiles`, `updateFilePermissions` and `getFilePermissions`
send their transport command unconditionally, with no validation. -/
theorem facade_validation_coverage (c : S3StorageClient) (key acl : String)
    (body : List Nat) (contentType : Option String) (uo : UploadFileOptions)
    (po : PresignedUploadUrlOptions) (dlo : PresignedDownloadUrlOptions)
    (bo : PresignedBasicOptions) (lo : PresignedListUrlOptions)
    (expiresIn : Nat) (e : ValidationError) (bucket : Option String) :
    (validateOperation c.security .write key
        { uo.toOperationOptions with
            contentType := contentType
            contentLength := some body.length } = Except.error e →
      c.uploadFile key body contentType uo = Except.error (.policyViolation e))
    ∧ (validateOperation c.security .read key uo.toOperationOptions = Except.error e →
      c.downloadFile key uo = Except.error (.policyViolation e))
    ∧ (validateOperation c.security .write key
        { role := po.role, contentType := po.contentType,
          contentLength := po.maxSize } = Except.error e →
      c.getPresignedUploadUrl key expiresIn po = Except.error (.policyViolation e))
    ∧ (validateOperation c.security .read key { role := dlo.role } = Except.error e →
      c.getPresignedDownloadUrl key expiresIn dlo = Except.error (.policyViolation e))
    ∧ (validateOperation c.security .delete key { role := bo.role } = Except.error e →
      c.getPresignedDeleteUrl key expiresIn bo = Except.error (.policyViolation e))
    ∧ (validateOperation c.security .list key { role := lo.role } = Except.error e →
      c.getPresignedListUrl key expiresIn lo = Except.error (.policyViolation e))
    ∧ (validateOperation c.security .acl_write key { role := bo.role } = Except.error e →
      c.getPresignedAclUrl key acl expiresIn bo = Except.error (.policyViolation e))
    ∧ c.deleteFile key bucket = Except.ok (.deleteObject (c.bucketOr bucket) key)
    ∧ c.listFiles (some key) bucket
        = Except.ok (.listObjectsV2 (c.bucketOr bucket) (some key) none none)
    ∧ c.updateFilePermissions key acl bucket
        = Except.ok (.putObjectAcl (c.bucketOr bucket) key acl)
    ∧ c.getFilePermissions key bucket
        = Except.ok (.getObjectAcl (c.bucketOr bucket) key) := by
  refine ⟨?_, ?_, ?_, ?_, ?_, ?_, ?_, rfl, rfl, rfl, rfl⟩ <;>
    · intro h
      simp [S3StorageClient.uploadFile, S3StorageClient.downloadFile,
        S3StorageClient.getPresignedUploadUrl, S3StorageClient.getPresignedDownloadUrl,
        S3StorageClient.getPresignedDeleteUrl, S3StorageClient.getPresignedListUrl,
        S3StorageClient.getPresignedAclUrl, h]

/-- Witness for C1 (amended) at a concrete denying policy: `uploadFile` on a
key outside `allowedPrefixes` fails with the policy-violation error. -/
theorem facade_validation_coverage_witness :
    S3StorageClient.uploadFile ⟨"b", some { allowedPrefixes := some ["public/"] }⟩
      "private/x.txt" [] none {}
      = Except.error (.policyViolation (.keyNotAllowed "private/x.txt")) :=
  (facade_validation_coverage ⟨"b", some { allowedPrefixes := some ["public/"] }⟩
    "private/x.txt" "private" [] none {} {} {} {} {} 3600
    (.keyNotAllowed "private/x.txt") none).1 (by decide)

/-- C2 counterexample: the policy's `roleBasedAccess` defines
`defaultRole = "viewer"` whose `allowedOperations` is `[read]` only, yet
`uploadFile` without an explicit role succeeds and reaches the transport;
had the default role been substituted before validation, the very same
request would have been denied with `operationNotAllowedForRole`. -/
theorem defaultRole_not_substituted :
    S3StorageClient.uploadFile ⟨"b", some { roleBasedAccess := some viewerOnlyAccess }⟩
      "k" [] none {} = Except.ok (.putObject "b" "k" none [])
    ∧ validateOperation (some { roleBasedAccess := some viewerOnlyAccess })
        .write "k" { role := some "viewer", contentLength := some 0 }
        = Except.error (.operationNotAllowedForRole .write "viewer") :=
  ⟨by decide, by decide⟩

/-- C2 (amended): the facade never substitutes `defaultRole`. When the
request carries no role, the validation outcome (and hence `uploadFile`'s
behaviour) is identical for every `roleBasedAccess` configuration — role
checks are skipped entirely rather than applied to the default role. -/
theorem defaultRole_never_applied (sec : S3SecurityConfig)
    (rba rba' : Option RoleBasedAccessConfig) (operation : S3Operation)
    (key db : String) (body : List Nat) (ct : Option String)
    (options : OperationOptions) (uo : UploadFileOptions)
    (h : options.role = none) (hu : uo.role = none) :
    validateOperation (some { sec with roleBasedAccess := rba }) operation key options
      = validateOperation (some { sec with roleBasedAccess := rba' }) operation key options
    ∧ S3StorageClient.uploadFile ⟨db, some { sec with roleBasedAccess := rba }⟩
        key body ct uo
      = S3StorageClient.uploadFile ⟨db, some { sec with roleBasedAccess := rba' }⟩
        key body ct uo := by
  have main : ∀ (op : S3Operation) (opts : OperationOptions), opts.role = none →
      validateOperation (some { sec with roleBasedAccess := rba }) op key opts
        = validateOperation (some { sec with roleBasedAccess := rba' }) op key opts := by
    intro op opts hr
    simp [validateOperation, hr, truthyStr]
  refine ⟨main operation options h, ?_⟩
  simp only [S3StorageClient.uploadFile]
  rw [main .write
    { role := uo.role, contentType := ct, contentLength := some body.length,
      metadata := uo.metadata }
    (by simp [hu])]
  rfl

/-- Witness for C2 (amended) at a concrete configuration: a role-less
validation under the `viewer` default-role policy equals validation under no
`roleBasedAccess` at all. -/
theorem defaultRole_never_applied_witness :
    validateOperation (some { roleBasedAccess := some viewerOnlyAccess }) .write "k" {}
      = validateOperation (some { roleBasedAccess := none }) .write "k" {} :=
  (defaultRole_never_applied {} (some viewerOnlyAccess) none .write "k" "b" [] none
    {} {} rfl rfl).1

/-- C3 counterexample: with no policy configured, validation of the intended
write succeeds, yet `getPresignedUploadUrl` with `expiresIn = 86401` fails
with the expiry-limit error — the 24-hour figure is an enforced ceiling, not
merely a documented recommendation. -/
theorem presigned_upload_expiry_counterexample :
    validateOperation none .write "k" {} = Except.ok ()
    ∧ S3StorageClient.getPresignedUploadUrl ⟨"b", none⟩ "k" 86401 {}
        = Except.error (.expiryLimitExceeded 86400) :=
  ⟨rfl, by decide⟩

/-- C3 (amended): `getPresignedUploadUrl` enforces a hard 24-hour (86400 s)
expiry ceiling after validation: when the policy validation of the intended
write succeeds, the URL is issued iff `expiresIn ≤ 86400`, and
`expiresIn > 86400` fails with `expiryLimitExceeded 86400` even though the
validation succeeded. -/
theorem presigned_upload_expiry_ceiling (c : S3StorageClient) (key : String)
    (expiresIn : Nat) (options : PresignedUploadUrlOptions)
    (hval : validateOperation c.security .write key
      { role := options.role, contentType := options.contentType,
        contentLength := options.maxSize } = Except.ok ()) :
    (expiresIn ≤ 86400 →
      c.getPresignedUploadUrl key expiresIn options
        = Except.ok ⟨.putObject (c.bucketOr options.bucket) key
            options.contentType options.metadata, expiresIn⟩)
    ∧ (expiresIn > 86400 →
      c.getPresignedUploadUrl key expiresIn options
        = Except.error (.expiryLimitExceeded 86400)) := by
  constructor
  · intro h
    simp [S3StorageClient.getPresignedUploadUrl, hval]
    omega
  · intro h
    simp [S3StorageClient.getPresignedUploadUrl, hval]
    omega

/-- Witness for C3 (amended): a 3600-second presigned upload URL is issued on
a client with no policy. -/
theorem presigned_upload_expiry_ceiling_witness :
    S3StorageClient.getPresignedUploadUrl ⟨"b", none⟩ "k" 3600 {}
      = Except.ok ⟨.putObject "b" "k" none [], 3600⟩ :=
  (presigned_upload_expiry_ceiling ⟨"b", none⟩ "k" 3600 {} rfl).1 (by decide)

/-- C4: for every client and options, when the policy validation of the
delete (resp. ACL-write) operation succeeds, issuing a presigned delete URL
or presigned ACL URL with `expiresIn = 3601` fails with
`expiryLimitExceeded 3600`, and with `expiresIn = 3600` succeeds — the
3600-second hard ceiling is boundary-inclusive. -/
theorem presigned_delete_acl_expiry_boundary (c : S3StorageClient) (key acl : String)
    (options : PresignedBasicOptions)
    (hdel : validateOperation c.security .delete key { role := options.role }
      = Except.ok ())
    (hacl : validateOperation c.security .acl_write key { role := options.role }
      = Except.ok ()) :
    c.getPresignedDeleteUrl key 3601 options = Except.error (.expiryLimitExceeded 3600)
    ∧ c.getPresignedDeleteUrl key 3600 options
        = Except.ok ⟨.deleteObject (c.bucketOr options.bucket) key, 3600⟩
    ∧ c.getPresignedAclUrl key acl 3601 options
        = Except.error (.expiryLimitExceeded 3600)
    ∧ c.getPresignedAclUrl key acl 3600 options
        = Except.ok ⟨.putObjectAcl (c.bucketOr options.bucket) key acl, 3600⟩ := by
  refine ⟨?_, ?_, ?_, ?_⟩ <;>
    simp [S3StorageClient.getPresignedDeleteUrl, S3StorageClient.getPresignedAclUrl,
      hdel, hacl]

/-- Witness for C4 on a client with no policy (validation trivially allows):
3601 fails, 3600 succeeds. -/
theorem presigned_delete_acl_expiry_boundary_witness :
    S3StorageClient.getPresignedDeleteUrl ⟨"b", none⟩ "k" 3601 {}
      = Except.error (.expiryLimitExceeded 3600)
    ∧ S3StorageClient.getPresignedAclUrl ⟨"b", none⟩ "k" "private" 3600 {}
      = Except.ok ⟨.putObjectAcl "b" "k" "private", 3600⟩ :=
  ⟨(presigned_delete_acl_expiry_boundary ⟨"b", none⟩ "k" "private" {} rfl rfl).1,
   (presigned_delete_acl_expiry_boundary ⟨"b", none⟩ "k" "private" {} rfl rfl).2.2.2⟩

/-- C5: when no `S3SecurityConfig` is configured, `validateOperation` returns
allow for every operation, key and options, and the facade (here `uploadFile`
and `downloadFile` on a client constructed without a policy) proceeds to
produce the transport command. -/
theorem validate_no_policy_allows (operation : S3Operation) (key : String)
    (options : OperationOptions) (db : String) (body : List Nat)
    (contentType : Option String) (uo : UploadFileOptions) :
    validateOperation none operation key options = Except.ok ()
    ∧ S3StorageClient.uploadFile ⟨db, none⟩ key body contentType uo
        = Except.ok (.putObject (S3StorageClient.bucketOr ⟨db, none⟩ uo.bucket)
            key contentType uo.metadata)
    ∧ S3StorageClient.downloadFile ⟨db, none⟩ key uo
        = Except.ok (.getObject (S3StorageClient.bucketOr ⟨db, none⟩ uo.bucket)
            key none none) :=
  ⟨rfl, rfl, rfl⟩

/-- C6: `validateOperation` equals the short-circuit evaluation of the nine
independent constraint checks in the spec's fixed order — content-type, size,
allow-prefix, deny-prefix, role existence, role allowedOperations, role
prefixes, role content types, role size — returning the deny decision of the
first failing check. -/
theorem validateOperation_firstFailure (sec : S3SecurityConfig)
    (operation : S3Operation) (key : String) (options : OperationOptions) :
    validateOperation (some sec) operation key options =
      firstFailure (validationChecks sec operation key options) := by
  simp only [validateOperation, validationChecks, checkContentType, checkFileSize,
    checkAllowedPrefixes, checkDeniedPrefixes, checkRoleExists, checkRoleOperation,
    checkRolePrefixes, checkRoleContentType, checkRoleFileSize, activeRoleConfig]
  by_cases h1 : (truthyStr options.contentType && truthyLen sec.allowedContentTypes
      && !((sec.allowedContentTypes.getD []).contains (options.contentType.getD ""))) = true
  · simp only [if_pos h1]; rfl
  simp only [if_neg h1]
  by_cases h2 : (truthyNat options.contentLength && truthyNat sec.maxFileSize
      && decide (options.contentLength.getD 0 > sec.maxFileSize.getD 0)) = true
  · simp only [if_pos h2]; rfl
  simp only [if_neg h2]
  by_cases h3 : (truthyLen sec.allowedPrefixes
      && !((sec.allowedPrefixes.getD []).any (fun p => strStartsWith key p))) = true
  · simp only [if_pos h3]; rfl
  simp only [if_neg h3]
  by_cases h4 : (truthyLen sec.deniedPrefixes
      && ((sec.deniedPrefixes.getD []).any (fun p => strStartsWith key p))) = true
  · simp only [if_pos h4]; rfl
  simp only [if_neg h4]
  by_cases h5 : (truthyStr options.role && sec.roleBasedAccess.isSome) = true
  · simp only [if_pos h5]
    cases hl : (sec.roleBasedAccess.getD ⟨[], none⟩).roles.lookup (options.role.getD "") with
    | none => rfl
    | some roleConfig =>
      by_cases h6 : (!(roleConfig.allowedOperations.contains operation)) = true
      · simp only [if_pos h6]; rfl
      simp only [if_neg h6]
      by_cases h7 : (truthyLen roleConfig.allowedPrefixes
          && !((roleConfig.allowedPrefixes.getD []).any (fun p => strStartsWith key p))) = true
      · simp only [if_pos h7]; rfl
      simp only [if_neg h7]
      by_cases h8 : (truthyStr options.contentType && truthyLen roleConfig.allowedContentTypes
          && !((roleConfig.allowedContentTypes.getD []).contains (options.contentType.getD ""))) = true
      · simp only [if_pos h8]; rfl
      simp only [if_neg h8]
      by_cases h9 : (truthyNat options.contentLength && truthyNat roleConfig.maxFileSize
          && decide (options.contentLength.getD 0 > roleConfig.maxFileSize.getD 0)) = true
      · simp only [if_pos h9]; rfl
      simp only [if_neg h9]; rfl
  · simp only [if_neg h5]; rfl

/-- C7: allow-prefix and deny-prefix checks must both pass independently:
any key matching no entry of a non-empty `allowedPrefixes` is denied, and any
key matching an entry of `deniedPrefixes` is denied — the latter regardless
of whether the key also matches an entry of `allowedPrefixes`. -/
theorem validate_prefix_lists_independent (sec : S3SecurityConfig)
    (operation : S3Operation) (key : String) (options : OperationOptions) :
    (∀ al, sec.allowedPrefixes = some al → al ≠ [] →
      (∀ p ∈ al, strStartsWith key p = false) →
      ∃ e, validateOperation (some sec) operation key options = Except.error e)
    ∧ (∀ dl, sec.deniedPrefixes = some dl →
      (∃ p ∈ dl, strStartsWith key p = true) →
      ∃ e, validateOperation (some sec) operation key options = Except.error e) := by
  constructor
  · intro al hal hne hm
    simp only [validateOperation]
    split
    · exact ⟨_, rfl⟩
    split
    · exact ⟨_, rfl⟩
    have hc : (truthyLen sec.allowedPrefixes
        && !((sec.allowedPrefixes.getD []).any (fun p => strStartsWith key p))) = true := by
      rw [hal]
      simp [truthyLen, hne, List.any_eq_true]
      exact hm
    rw [if_pos hc]
    exact ⟨_, rfl⟩
  · intro dl hdl hex
    simp only [validateOperation]
    split
    · exact ⟨_, rfl⟩
    split
    · exact ⟨_, rfl⟩
    split
    · exact ⟨_, rfl⟩
    have hc : (truthyLen sec.deniedPrefixes
        && ((sec.deniedPrefixes.getD []).any (fun p => strStartsWith key p))) = true := by
      rw [hdl]
      obtain ⟨p, hp, hsp⟩ := hex
      have h2 : (dl.any fun q => strStartsWith key q) = true :=
        List.any_eq_true.mpr ⟨p, hp, hsp⟩
      cases dl with
      | nil => cases hp
      | cons a as => simpa [truthyLen] using h2
    rw [if_pos hc]
    exact ⟨_, rfl⟩

/-- Witness for C7: `"private/x.txt"` outside `allowedPrefixes = ["public/"]`
is denied, and `"public/secret/a"` is denied although it matches the allowed
entry `"public/"`, because it also matches the denied entry
`"public/secret/"`. -/
theorem validate_prefix_lists_independent_witness :
    (∃ e, validateOperation (some { allowedPrefixes := some ["public/"] })
      .write "private/x.txt" {} = Except.error e)
    ∧ (∃ e, validateOperation
        (some { allowedPrefixes := some ["public/"],
                deniedPrefixes := some ["public/secret/"] })
        .write "public/secret/a" {} = Except.error e) :=
  ⟨(validate_prefix_lists_independent _ .write "private/x.txt" {}).1
      ["public/"] rfl (by decide) (by decide),
   (validate_prefix_lists_independent _ .write "public/secret/a" {}).2
      ["public/secret/"] rfl ⟨"public/secret/", by decide, by decide⟩⟩

/-- C8 counterexample: with `maxFileSize` set to `0` and `contentLength` set
to `1`, the content length strictly exceeds the maximum, yet validation
allows — JavaScript truthiness treats the configured `0` as absent, so the
claimed "denies exactly when contentLength > maxFileSize" fails for
zero-valued fields. -/
theorem maxFileSize_zero_counterexample :
    validateOperation (some { maxFileSize := some 0 }) .write "k"
      { contentLength := some 1 } = Except.ok ()
    ∧ 1 > 0 :=
  ⟨rfl, by decide⟩

/-- C8 (amended): for requests whose `contentLength = some n` with `n ≠ 0`
and policies whose `maxFileSize = some m` with `m ≠ 0` (zero values are
treated as absent by the source's truthiness guards), when the preceding
content-type check passes, validation denies with the global size reason
exactly when `n > m` — the boundary is inclusive, so with `m = 1000` a
request of 1001 is denied and one of 1000 is allowed. -/
theorem validate_global_size_boundary (sec : S3SecurityConfig)
    (operation : S3Operation) (key : String) (options : OperationOptions)
    (n m : Nat) (hn : options.contentLength = some n) (hn0 : n ≠ 0)
    (hm : sec.maxFileSize = some m) (hm0 : m ≠ 0)
    (hct : checkContentType sec options = none) :
    (validateOperation (some sec) operation key options
      = Except.error (.fileSizeExceeded m)) ↔ n > m := by
  have h1 : ¬((truthyStr options.contentType && truthyLen sec.allowedContentTypes
      && !((sec.allowedContentTypes.getD []).contains (options.contentType.getD ""))) = true) := by
    intro h
    rw [checkContentType, if_pos h] at hct
    exact Option.noConfusion hct
  simp only [validateOperation, if_neg h1]
  rw [hn, hm]
  by_cases hgt : n > m
  · have hc : (truthyNat (some n) && truthyNat (some m)
        && decide ((some n).getD 0 > (some m).getD 0)) = true := by
      simp [truthyNat, hn0, hm0]
      omega
    rw [if_pos hc]
    simp [hgt]
  · have hc : ¬((truthyNat (some n) && truthyNat (some m)
        && decide ((some n).getD 0 > (some m).getD 0)) = true) := by
      simp [truthyNat, hn0, hm0]
      omega
    rw [if_neg hc]
    simp only [hgt, iff_false]
    intro hcontra
    repeat' split at hcontra
    all_goals simp_all

/-- Witness for C8 (amended) at the spec's scenario D: `maxFileSize = 1000`,
`contentLength = 1001` denied with the size reason; `contentLength = 1000`
allowed. -/
theorem validate_global_size_boundary_witness :
    validateOperation (some { maxFileSize := some 1000 }) .write "k"
      { contentLength := some 1001 } = Except.error (.fileSizeExceeded 1000)
    ∧ validateOperation (some { maxFileSize := some 1000 }) .write "k"
      { contentLength := some 1000 } = Except.ok () :=
  ⟨(validate_global_size_boundary { maxFileSize := some 1000 } .write "k"
      { contentLength := some 1001 } 1001 1000 rfl (by decide) rfl
      (by decide) rfl).mpr (by decide),
   rfl⟩

/-- C9 counterexample: a request whose `contentType` is set to the empty
string, which is outside the non-empty `allowedContentTypes = ["text/plain"]`,
is allowed — JavaScript truthiness treats the set-but-empty string as absent,
so the claim fails for `contentType = ""`. -/
theorem contentType_empty_counterexample :
    validateOperation (some { allowedContentTypes := some ["text/plain"] })
      .write "k" { contentType := some "" } = Except.ok ()
    ∧ "" ∉ ["text/plain"] :=
  ⟨by decide, by decide⟩

/-- C9 (amended): every request whose `contentType` is a non-empty string
outside a non-empty global `allowedContentTypes` list is denied with the
content-type reason, regardless of which role (if any) the request carries
(the content-type check is the first check, so no role data can mask it). -/
theorem validate_contentType_denied (sec : S3SecurityConfig)
    (operation : S3Operation) (key : String) (options : OperationOptions)
    (ct : String) (types : List String)
    (hct : options.contentType = some ct) (hct0 : ct ≠ "")
    (hty : sec.allowedContentTypes = some types) (hne : types ≠ [])
    (hnotin : ct ∉ types) :
    validateOperation (some sec) operation key options
      = Except.error (.contentTypeNotAllowed ct) := by
  have hc : (truthyStr options.contentType && truthyLen sec.allowedContentTypes
      && !((sec.allowedContentTypes.getD []).contains (options.contentType.getD ""))) = true := by
    rw [hct, hty]
    simp [truthyStr, truthyLen, hct0, hne, hnotin]
  simp only [validateOperation]
  rw [if_pos hc, hct]
  rfl

/-- Witness for C9 (amended): `"application/zip"` outside `["image/png"]` is
denied with the content-type reason even for a request carrying a role. -/
theorem validate_contentType_denied_witness :
    validateOperation (some { allowedContentTypes := some ["image/png"] })
      .write "k" { role := some "admin", contentType := some "application/zip" }
      = Except.error (.contentTypeNotAllowed "application/zip") :=
  validate_contentType_denied _ .write "k" _ "application/zip" ["image/png"]
    rfl (by decide) rfl (by decide) (by decide)

/-- C10: `checkBucket` never raises: whatever the transport replies for the
`HeadBucketCommand` on the given bucket (or the configured default), it
returns `true` exactly when the call succeeds and `false` on any transport
error whatsoever, so callers cannot distinguish a missing bucket from access
denied or a network failure. -/
theorem checkBucket_total (c : S3StorageClient) (bucket : Option String)
    (send : TransportCommand → Except TransportError Unit) :
    (c.checkBucket bucket send = true
      ↔ send (.headBucket (c.bucketOr bucket)) = Except.ok ())
    ∧ ∀ e, send (.headBucket (c.bucketOr bucket)) = Except.error e →
        c.checkBucket bucket send = false := by
  constructor
  · cases hsend : send (.headBucket (c.bucketOr bucket)) with
    | ok u => cases u; simp [S3StorageClient.checkBucket, hsend]
    | error e => simp [S3StorageClient.checkBucket, hsend]
  · intro e he
    simp [S3StorageClient.checkBucket, he]

/-- Witness for C10: a transport that succeeds yields `true`; one that fails
with not-found yields `false`. -/
theorem checkBucket_total_witness :
    S3StorageClient.checkBucket ⟨"b", none⟩ none (fun _ => Except.ok ()) = true
    ∧ S3StorageClient.checkBucket ⟨"b", none⟩ none
        (fun _ => Except.error .notFound) = false :=
  ⟨(checkBucket_total ⟨"b", none⟩ none (fun _ => Except.ok ())).1.mpr rfl,
   (checkBucket_total ⟨"b", none⟩ none (fun _ => Except.error .notFound)).2 .notFound rfl⟩
